import Mathlib

/-
  Verification development for the oc-accel hls_helloworld example
  (src/actions/hls_helloworld/sw/ocaccel_helloworld.c).

  The C program is embedded shallowly.  Pure helpers of the source become
  Lean functions with the source names (ocaccel_addr_set,
  ocaccel_prepare_helloworld).  The body of main after command-line parsing
  (lines 251-417 of the C file) becomes `run`, a function from the parsed
  options (`Opts`) and an oracle for every external call (`Env`: file sizes,
  allocation results, library return codes, hardware-written buffer bytes)
  to the observable behaviour of the process: the ordered trace of calls
  and messages (`Trace`) plus the process exit status.

  Command-line parsing itself (getopt loop, lines 147-249) is represented
  by the `Opts` record holding the values the loop leaves behind; the -A, -D
  parser admits exactly CARD_DRAM and HOST_DRAM and exits otherwise, so
  `AddrType` has exactly those two constructors, with HOST_DRAM the default
  of both type fields.
-/

set_option maxRecDepth 8192

namespace OcaccelHW

/-- Memory spaces the example can select: -A and -D accept exactly the strings
CARD_DRAM and HOST_DRAM (lines 184-209); HOST_DRAM is the default of both
`type_in` and `type_out` (lines 135, 137). -/
inductive AddrType where
  | HOST_DRAM
  | CARD_DRAM
  deriving DecidableEq, Repr

/-- The flag bits OCACCEL_ADDRFLAG_ADDR / _SRC / _DST / _END carried by an
address descriptor, represented as a bitset of four named booleans. -/
structure AddrFlags where
  isAddr : Bool
  isSrc  : Bool
  isDst  : Bool
  isEnd  : Bool
  deriving DecidableEq, Repr

/-- struct ocaccel_addr: one address descriptor (pointer, length, memory
space, role flags). -/
structure OcaccelAddr where
  addr  : Nat
  size  : Nat
  typ   : AddrType
  flags : AddrFlags
  deriving DecidableEq, Repr

/-- struct helloworld_job: the input and the output address descriptor.
The C field named in is called inp here because in is a Lean keyword. -/
structure HelloworldJob where
  inp : OcaccelAddr
  out : OcaccelAddr
  deriving DecidableEq, Repr

/-- ocaccel_addr_set(dst, addr, size, type, flags): pure field assignment
into an address descriptor, no side effects. -/
def ocaccel_addr_set (addr : Nat) (size : Nat) (typ : AddrType)
    (flags : AddrFlags) : OcaccelAddr :=
  { addr := addr, size := size, typ := typ, flags := flags }

/-- Modelled from the spec: sizeof(struct ocaccel_addr).  The struct is
declared in a header that is not under src (8-byte pointer, 4-byte length,
1-byte space, 1-byte flags, padded); the spec describes the Address
Descriptor as a fixed-size element of the register window. -/
def sizeof_ocaccel_addr : Nat := 16

/-- Modelled from the spec: sizeof(struct helloworld_job): the job holds
exactly the two address descriptors set by ocaccel_prepare_helloworld. -/
def sizeof_helloworld_job : Nat := 2 * sizeof_ocaccel_addr

/-- Modelled from the spec: OCACCEL_JOBSIZE, the fixed total capacity of
the register window (a header constant not under src); the spec describes
a window holding several descriptors plus an opaque payload region. -/
def OCACCEL_JOBSIZE : Nat := 16 * 6 + 8

/-- ocaccel_prepare_helloworld (lines 90-113): zeroes the job, sets the
input descriptor with flags ADDR|SRC and the output descriptor with flags
ADDR|DST|END.  The assert at line 101 is modelled by the Option: none is
the aborted run of a job too large for the register window. -/
def ocaccel_prepare_helloworld (addr_in : Nat) (size_in : Nat)
    (type_in : AddrType) (addr_out : Nat) (size_out : Nat)
    (type_out : AddrType) : Option HelloworldJob :=
  if sizeof_helloworld_job ≤ OCACCEL_JOBSIZE then
    some { inp := ocaccel_addr_set addr_in size_in type_in
                    { isAddr := true, isSrc := true, isDst := false, isEnd := false }
         , out := ocaccel_addr_set addr_out size_out type_out
                    { isAddr := true, isSrc := false, isDst := true, isEnd := true } }
  else
    none

/-- Observable events of one run of main: external calls in program order
and the messages relevant to the claims.  The err... constructors are the
fprintf(stderr, "err: ...") diagnostics; warnVerify is the
"warn: Verification works currently only with HOST_DRAM" message;
infoPrepare is the informational stderr line printed inside
ocaccel_prepare_helloworld on every invocation. -/
inductive Ev where
  | allocIn (n : Nat)
  | readFile
  | allocOut (n : Nat)
  | cardAllocEv
  | attachEv (ok : Bool)
  | assignIrq
  | errCard
  | errAttach
  | errExec
  | errRetc
  | errTrailing
  | warnVerify
  | infoPrepare
  | assertFail
  | execEv
  | writeFileEv
  | stdoutSuccess
  | stdoutFailed
  | cmpData (ib : Nat) (ob : Nat)
  | cmpTrailing (ob : Nat)
  | detachEv
  | cardFreeEv
  deriving DecidableEq, Repr

abbrev Trace := List Ev

/-- The values left behind by the getopt loop (lines 121-144 defaults,
lines 173-239 assignments).  input and output record whether -i and -o were given;
noIrq records -N (which clears action_irq). -/
structure Opts where
  input   : Bool
  output  : Bool
  typeIn  : AddrType
  addrIn  : Nat
  typeOut : AddrType
  addrOut : Nat
  size    : Nat
  verify  : Bool
  noIrq   : Bool

/-- Oracle for every external call main makes: the value __file_size
returns, the pointers ocaccel_malloc returns (0 is NULL), the return codes
of __file_read, ocaccel_card_alloc_dev (as a success bit),
ocaccel_attach_action (as a success bit), ocaccel_action_sync_execute_job,
__file_write, the hardware return code cjob.retc read back after
execution, and the byte contents of the input buffer after the file read
(ibuff i = byte i) and of the output buffer after execution (obuff i). -/
structure Env where
  fileSize  : Int
  ibuffAddr : Nat
  readRc    : Int
  obuffAddr : Nat
  cardOk    : Bool
  attachOk  : Bool
  execRc    : Int
  writeRc   : Int
  retc      : Nat
  ibuff     : Nat → Nat
  obuff     : Nat → Nat

def EXIT_SUCCESS : Int := 0

def EXIT_FAILURE : Int := 1

/-- Modelled from the spec: EX_ERR_VERIFY, the distinct non-zero exit code
of a verification mismatch, defined in a header not under src; the spec
only requires it to be non-zero and distinct from the generic failure
exit. -/
def EX_ERR_VERIFY : Int := 42

/-- Process status of an aborted assert (SIGABRT); only the unreachable
too-large-job branch of the model uses it. -/
def EX_ABORT : Int := 134

/-- Modelled from the spec: OCACCEL_RETC_SUCCESS, the hardware success
return code, a header constant not under src; only equality with cjob.retc
is ever tested, so the numeric value is immaterial. -/
def OCACCEL_RETC_SUCCESS : Nat := 258

/-- memcmp(f, g, n) == 0 for byte sources f and g. -/
def memEq (f g : Nat → Nat) (n : Nat) : Bool :=
  (List.range n).all fun i => f i == g i

/-- memcmp(obuff + size, trailing_zeros, 1024) == 0: the 1024 bytes of g
from offset sz on are all zero. -/
def trailZeroOk (g : Nat → Nat) (sz : Nat) : Bool :=
  (List.range 1024).all fun i => g (sz + i) == 0

/-- The value of the local variable size when control reaches line 290:
the input file size if -i was given (line 253), else the -s value. -/
def effSize (o : Opts) (e : Env) : Nat :=
  if o.input then e.fileSize.toNat else o.size

/-- The value of type_in at line 290: forced to HOST_DRAM by line 272 if
-i was given, else whatever -A left. -/
def effTypeIn (o : Opts) : AddrType :=
  if o.input then AddrType.HOST_DRAM else o.typeIn

/-- The value of addr_in at line 290: the ibuff pointer (line 273) if -i
was given, else the -a value. -/
def effAddrIn (o : Opts) (e : Env) : Nat :=
  if o.input then e.ibuffAddr else o.addrIn

/-- The value of type_out at line 290: forced to HOST_DRAM by line 287 if
-o was given, else whatever -D left. -/
def effTypeOut (o : Opts) : AddrType :=
  if o.output then AddrType.HOST_DRAM else o.typeOut

/-- The value of addr_out at line 290: the obuff pointer (line 288) if -o
was given, else the -d value. -/
def effAddrOut (o : Opts) (e : Env) : Nat :=
  if o.output then e.obuffAddr else o.addrOut

/-- The ibuff pointer main holds during verification: the allocation
result if -i was given, else the initial NULL of line 134. -/
def ibuffPtr (o : Opts) (e : Env) : Nat :=
  if o.input then e.ibuffAddr else 0

/-- The obuff pointer main holds during verification: the allocation
result if -o was given, else the initial NULL of line 134. -/
def obuffPtr (o : Opts) (e : Env) : Nat :=
  if o.output then e.obuffAddr else 0

/-- The job main builds at lines 335-337: ocaccel_prepare_helloworld
applied to the effective parameters, with the same size for input and
output descriptor. -/
def preparedJob (o : Opts) (e : Env) : Option HelloworldJob :=
  ocaccel_prepare_helloworld (effAddrIn o e) (effSize o e) (effTypeIn o)
    (effAddrOut o e) (effSize o e) (effTypeOut o)

/-- Prepend a trace to the result of a later program stage. -/
def withPre (p : Trace) (r : Trace × Int) : Trace × Int :=
  (p ++ r.1, r.2)

/-- type_in == HOST_DRAM && type_out == HOST_DRAM at line 380, over the
effective (post-override) types. -/
def bothHost (o : Opts) : Bool :=
  decide (effTypeIn o = AddrType.HOST_DRAM) &&
  decide (effTypeOut o = AddrType.HOST_DRAM)

/-- Lines 378-408: the verify block, the teardown of the success path
(detach then card free, lines 403-404) and exit(exit_code).  exit_code is
EXIT_SUCCESS unless one of the two memcmp checks fails, which sets
EX_ERR_VERIFY (lines 384, 391); only the trailing-zero failure prints a
diagnostic (line 388). -/
def verifyStage (o : Opts) (e : Env) : Trace × Int :=
  if o.verify then
    if bothHost o then
      ([Ev.cmpData (ibuffPtr o e) (obuffPtr o e),
        Ev.cmpTrailing (obuffPtr o e)]
        ++ (if trailZeroOk e.obuff (effSize o e) then [] else [Ev.errTrailing])
        ++ [Ev.detachEv, Ev.cardFreeEv],
       if memEq e.ibuff e.obuff (effSize o e) && trailZeroOk e.obuff (effSize o e)
       then EXIT_SUCCESS else EX_ERR_VERIFY)
    else
      ([Ev.warnVerify, Ev.detachEv, Ev.cardFreeEv], EXIT_SUCCESS)
  else
    ([Ev.detachEv, Ev.cardFreeEv], EXIT_SUCCESS)

/-- Lines 371-376: print SUCCESS or FAILED on stdout from cjob.retc, and
on a non-success return code print the RETC diagnostic and take goto
out_error2 (detach, card free, exit(EXIT_FAILURE)). -/
def retcStage (o : Opts) (e : Env) : Trace × Int :=
  if e.retc = OCACCEL_RETC_SUCCESS then
    withPre [Ev.stdoutSuccess] (verifyStage o e)
  else
    ([Ev.stdoutFailed, Ev.errRetc, Ev.detachEv, Ev.cardFreeEv], EXIT_FAILURE)

/-- Lines 362-369: if -o was given, __file_write the output buffer; a
negative return code takes goto out_error2. -/
def writeStage (o : Opts) (e : Env) : Trace × Int :=
  if o.output then
    if e.writeRc < 0 then
      ([Ev.writeFileEv, Ev.detachEv, Ev.cardFreeEv], EXIT_FAILURE)
    else
      withPre [Ev.writeFileEv] (retcStage o e)
  else
    retcStage o e

/-- Lines 334-359: build the job (the stderr info line prints inside the
helper before its assert), run ocaccel_action_sync_execute_job, and on a
non-zero return code take goto out_error2. -/
def execStage (o : Opts) (e : Env) : Trace × Int :=
  match preparedJob o e with
  | none => ([Ev.infoPrepare, Ev.assertFail], EX_ABORT)
  | some _ =>
    if e.execRc = 0 then
      withPre [Ev.infoPrepare, Ev.execEv] (writeStage o e)
    else
      ([Ev.infoPrepare, Ev.execEv, Ev.errExec, Ev.detachEv, Ev.cardFreeEv],
       EXIT_FAILURE)

/-- Lines 324-332: attach the action; when action_irq is set (-N absent),
ocaccel_action_assign_irq runs on whatever ocaccel_attach_action returned,
and only afterwards is action tested against NULL; a NULL action takes
goto out_error1 (card free, exit(EXIT_FAILURE)). -/
def attachStage (o : Opts) (e : Env) : Trace × Int :=
  if e.attachOk then
    withPre ([Ev.attachEv e.attachOk]
              ++ (if o.noIrq then [] else [Ev.assignIrq])) (execStage o e)
  else
    ([Ev.attachEv e.attachOk] ++ (if o.noIrq then [] else [Ev.assignIrq])
      ++ [Ev.errAttach, Ev.cardFreeEv], EXIT_FAILURE)

/-- Lines 307-322: open the card; a NULL card prints the diagnostic and
takes goto out_error (exit(EXIT_FAILURE), nothing yet to release). -/
def cardStage (o : Opts) (e : Env) : Trace × Int :=
  if e.cardOk then
    withPre [Ev.cardAllocEv] (attachStage o e)
  else
    ([Ev.cardAllocEv, Ev.errCard], EXIT_FAILURE)

/-- Lines 276-289: if -o was given, allocate the output buffer of
set_size = size + (verify ? 1024 : 0) bytes and force the output
parameters; a NULL allocation takes goto out_error. -/
def outputStage (o : Opts) (e : Env) : Trace × Int :=
  if o.output then
    if e.obuffAddr = 0 then
      ([Ev.allocOut (effSize o e + (if o.verify then 1024 else 0))],
       EXIT_FAILURE)
    else
      withPre [Ev.allocOut (effSize o e + (if o.verify then 1024 else 0))]
        (cardStage o e)
  else
    cardStage o e

/-- Lines 251-417 of main: everything after command-line parsing.  First
the input stage (lines 251-274: file size, input buffer allocation, file
read, parameter overrides), then the later stages in program order.  The
result is the event trace of the run and the process exit status. -/
def run (o : Opts) (e : Env) : Trace × Int :=
  if o.input then
    if e.fileSize < 0 then
      ([], EXIT_FAILURE)
    else if e.ibuffAddr = 0 then
      ([Ev.allocIn e.fileSize.toNat], EXIT_FAILURE)
    else if e.readRc < 0 then
      ([Ev.allocIn e.fileSize.toNat, Ev.readFile], EXIT_FAILURE)
    else
      withPre [Ev.allocIn e.fileSize.toNat, Ev.readFile] (outputStage o e)
  else
    outputStage o e

/-- The input stage succeeded (or was skipped because -i was absent). -/
def inputOk (o : Opts) (e : Env) : Bool :=
  !o.input || (decide (0 ≤ e.fileSize) && (e.ibuffAddr != 0) && decide (0 ≤ e.readRc))

/-- The output stage succeeded (or was skipped because -o was absent). -/
def outputOk (o : Opts) (e : Env) : Bool :=
  !o.output || (e.obuffAddr != 0)

/-- Control reaches the return-code test at line 371: every earlier
fallible step succeeded. -/
def reachRetcOk (o : Opts) (e : Env) : Bool :=
  inputOk o e && outputOk o e && e.cardOk && e.attachOk &&
  decide (e.execRc = 0) && (!o.output || decide (0 ≤ e.writeRc))

/-- When verification is requested and actually performed (both effective
types HOST_DRAM), both memcmp checks pass; vacuously true otherwise. -/
def verifySucceeds (o : Opts) (e : Env) : Bool :=
  !o.verify || !bothHost o ||
  (memEq e.ibuff e.obuff (effSize o e) && trailZeroOk e.obuff (effSize o e))

/-- Every fallible step of the run succeeded, including the hardware
return code and (when performed) verification. -/
def fullSuccess (o : Opts) (e : Env) : Bool :=
  reachRetcOk o e && (e.retc == OCACCEL_RETC_SUCCESS) && verifySucceeds o e

/-- First of detach / card-free to occur in the trace is detach (true also
when neither occurs). -/
def dbf : Trace → Bool
  | [] => true
  | x :: rest =>
    if x = Ev.cardFreeEv then false
    else if x = Ev.detachEv then true
    else dbf rest

/-- The event is one of the two verification memcmp calls. -/
def isCmp : Ev → Bool
  | Ev.cmpData _ _ => true
  | Ev.cmpTrailing _ => true
  | _ => false

/-- The event is an fprintf(stderr, "err: ...") failure diagnostic. -/
def isDiag : Ev → Bool
  | Ev.errCard => true
  | Ev.errAttach => true
  | Ev.errExec => true
  | Ev.errRetc => true
  | Ev.errTrailing => true
  | _ => false

/-- A default job value used to read a prepared job out of its Option. -/
def jobDefault : HelloworldJob :=
  { inp := ocaccel_addr_set 0 0 AddrType.HOST_DRAM
             { isAddr := false, isSrc := false, isDst := false, isEnd := false }
  , out := ocaccel_addr_set 0 0 AddrType.HOST_DRAM
             { isAddr := false, isSrc := false, isDst := false, isEnd := false } }

/-- The job main builds, with the default for the unreachable assert
branch. -/
def preparedJobD (o : Opts) (e : Env) : HelloworldJob :=
  (preparedJob o e).getD jobDefault

/-- Options as left by a run with no arguments beyond the program name
would not occur (main exits); this is the option record of a plain
run with all defaults of lines 121-144 and a small -s size. -/
def optsBase : Opts :=
  { input := false, output := false, typeIn := AddrType.HOST_DRAM,
    addrIn := 0, typeOut := AddrType.HOST_DRAM, addrOut := 0,
    size := 2, verify := false, noIrq := false }

/-- An oracle on which every external call succeeds, the hardware reports
success, and the output bytes equal the input bytes with zero trailing
bytes. -/
def envBase : Env :=
  { fileSize := 2, ibuffAddr := 100, readRc := 0, obuffAddr := 200,
    cardOk := true, attachOk := true, execRc := 0, writeRc := 0,
    retc := OCACCEL_RETC_SUCCESS,
    ibuff := fun _ => 0, obuff := fun _ => 0 }

/-- The job ocaccel_prepare_helloworld builds never hits the assert: it is
always some job. -/
def jobOf (o : Opts) (e : Env) : HelloworldJob :=
  { inp := ocaccel_addr_set (effAddrIn o e) (effSize o e) (effTypeIn o)
             { isAddr := true, isSrc := true, isDst := false, isEnd := false }
  , out := ocaccel_addr_set (effAddrOut o e) (effSize o e) (effTypeOut o)
             { isAddr := true, isSrc := false, isDst := true, isEnd := true } }

theorem preparedJob_eq (o : Opts) (e : Env) :
    preparedJob o e = some (jobOf o e) := rfl

theorem mem_withPre {a : Ev} {p : Trace} {r : Trace × Int} :
    a ∈ (withPre p r).1 ↔ a ∈ p ∨ a ∈ r.1 := by
  simp [withPre]

theorem snd_withPre {p : Trace} {r : Trace × Int} :
    (withPre p r).2 = r.2 := rfl

/-- The events of the input and output stages on their success paths. -/
def ioPrefix (o : Opts) (e : Env) : Trace :=
  (if o.input then [Ev.allocIn e.fileSize.toNat, Ev.readFile] else [])
  ++ (if o.output then
        [Ev.allocOut (effSize o e + (if o.verify then 1024 else 0))] else [])

/-- The events between the card allocation and the return-code test when
every step in between succeeds. -/
def midPrefix (o : Opts) : Trace :=
  [Ev.cardAllocEv, Ev.attachEv true]
  ++ (if o.noIrq then [] else [Ev.assignIrq])
  ++ [Ev.infoPrepare, Ev.execEv]
  ++ (if o.output then [Ev.writeFileEv] else [])

/-- Everything emitted before the return-code test at line 371 on a run
reaching it. -/
def preRetcPrefix (o : Opts) (e : Env) : Trace :=
  ioPrefix o e ++ midPrefix o

/-- Everything emitted before the verify block at line 379 on a run
reaching it. -/
def normalPrefix (o : Opts) (e : Env) : Trace :=
  preRetcPrefix o e ++ [Ev.stdoutSuccess]

theorem run_decomp (o : Opts) (e : Env) (h1 : inputOk o e = true)
    (h2 : outputOk o e = true) :
    run o e = withPre (ioPrefix o e) (cardStage o e) := by
  by_cases hi : o.input
  · simp only [inputOk, hi, Bool.not_true, Bool.false_or, Bool.and_eq_true,
      decide_eq_true_eq, bne_iff_ne, ne_eq] at h1
    obtain ⟨⟨hfs, hib⟩, hrd⟩ := h1
    have hfs' : ¬ e.fileSize < 0 := by omega
    have hrd' : ¬ e.readRc < 0 := by omega
    by_cases ho : o.output
    · simp only [outputOk, ho, Bool.not_true, Bool.false_or, bne_iff_ne,
        ne_eq] at h2
      simp [run, outputStage, ioPrefix, withPre, hi, ho, hfs', hib, hrd', h2]
    · simp [run, outputStage, ioPrefix, withPre, hi, ho, hfs', hib, hrd']
  · by_cases ho : o.output
    · simp only [outputOk, ho, Bool.not_true, Bool.false_or, bne_iff_ne,
        ne_eq] at h2
      simp [run, outputStage, ioPrefix, withPre, hi, ho, h2]
    · simp [run, outputStage, ioPrefix, withPre, hi, ho]

theorem card_to_retc (o : Opts) (e : Env) (h3 : e.cardOk = true)
    (h4 : e.attachOk = true) (h5 : e.execRc = 0)
    (h6 : o.output = false ∨ 0 ≤ e.writeRc) :
    cardStage o e = withPre (midPrefix o) (retcStage o e) := by
  by_cases ho : o.output
  · have hwr : ¬ e.writeRc < 0 := by
      rcases h6 with h | h
      · simp [ho] at h
      · omega
    simp [cardStage, attachStage, execStage, preparedJob_eq, writeStage,
      midPrefix, withPre, h3, h4, h5, ho, hwr]
  · simp [cardStage, attachStage, execStage, preparedJob_eq, writeStage,
      midPrefix, withPre, h3, h4, h5, ho]

theorem run_to_retc (o : Opts) (e : Env) (h : reachRetcOk o e = true) :
    run o e = withPre (preRetcPrefix o e) (retcStage o e) := by
  simp only [reachRetcOk, Bool.and_eq_true] at h
  obtain ⟨⟨⟨⟨⟨h1, h2⟩, h3⟩, h4⟩, h5⟩, h6⟩ := h
  simp only [decide_eq_true_eq] at h5
  simp only [Bool.or_eq_true, Bool.not_eq_true', decide_eq_true_eq] at h6
  rw [run_decomp o e h1 h2, card_to_retc o e h3 h4 h5 h6]
  simp [withPre, preRetcPrefix]

theorem run_reach (o : Opts) (e : Env) (h : reachRetcOk o e = true)
    (hr : e.retc = OCACCEL_RETC_SUCCESS) :
    run o e = withPre (normalPrefix o e) (verifyStage o e) := by
  rw [run_to_retc o e h]
  simp [retcStage, withPre, normalPrefix, hr]

theorem verifyStage_snd (o : Opts) (e : Env) :
    (verifyStage o e).2 =
      if verifySucceeds o e = true then EXIT_SUCCESS else EX_ERR_VERIFY := by
  unfold verifyStage verifySucceeds
  split_ifs <;> simp_all

theorem run_snd_fail (o : Opts) (e : Env) (h : reachRetcOk o e = false) :
    (run o e).2 = EXIT_FAILURE := by
  by_cases h1 : inputOk o e = true
  · by_cases h2 : outputOk o e = true
    · rw [run_decomp o e h1 h2, snd_withPre]
      simp only [reachRetcOk, h1, h2, Bool.true_and] at h
      by_cases h3 : e.cardOk
      · by_cases h4 : e.attachOk
        · by_cases h5 : e.execRc = 0
          · simp only [h3, h4, h5] at h
            have hw' : (!o.output || decide (0 ≤ e.writeRc)) = false := by
              simpa using h
            rw [Bool.or_eq_false_iff] at hw'
            have ho : o.output = true := by simpa using hw'.1
            have hw : e.writeRc < 0 := by
              have := hw'.2
              simp only [decide_eq_false_iff_not, not_le] at this
              exact this
            simp [cardStage, attachStage, execStage, preparedJob_eq,
              writeStage, withPre, h3, h4, h5, ho, hw]
          · simp [cardStage, attachStage, execStage, preparedJob_eq,
              withPre, h3, h4, h5]
        · simp [cardStage, attachStage, withPre, h3, h4]
      · simp [cardStage, h3]
    · have ho : o.output = true := by
        by_contra hx
        simp only [Bool.not_eq_true] at hx
        simp [outputOk, hx] at h2
      have hob : e.obuffAddr = 0 := by
        by_contra hx
        simp [outputOk, hx] at h2
      by_cases hi : o.input
      · simp only [inputOk, hi, Bool.not_true, Bool.false_or,
          Bool.and_eq_true, decide_eq_true_eq, bne_iff_ne, ne_eq] at h1
        obtain ⟨⟨hfs, hib⟩, hrd⟩ := h1
        have hfs' : ¬ e.fileSize < 0 := by omega
        have hrd' : ¬ e.readRc < 0 := by omega
        simp [run, outputStage, withPre, hi, ho, hob, hfs', hib, hrd']
      · simp [run, outputStage, withPre, hi, ho, hob]
  · have hi : o.input = true := by
      by_contra hx
      simp only [Bool.not_eq_true] at hx
      simp [inputOk, hx] at h1
    unfold run
    simp only [hi, if_true]
    by_cases hfs : e.fileSize < 0
    · simp [hfs]
    · by_cases hib : e.ibuffAddr = 0
      · simp [hfs, hib]
      · by_cases hrd : e.readRc < 0
        · simp [hfs, hib, hrd]
        · exact absurd (by
            simp only [inputOk, hi, Bool.not_true, Bool.false_or,
              Bool.and_eq_true, decide_eq_true_eq, bne_iff_ne, ne_eq]
            refine ⟨⟨by omega, hib⟩, by omega⟩) h1

theorem run_snd_cases (o : Opts) (e : Env) :
    (run o e).2 =
      if fullSuccess o e = true then EXIT_SUCCESS
      else if reachRetcOk o e = true ∧ e.retc = OCACCEL_RETC_SUCCESS then
        EX_ERR_VERIFY
      else EXIT_FAILURE := by
  by_cases hreach : reachRetcOk o e = true
  · rw [run_to_retc o e hreach, snd_withPre]
    by_cases hr : e.retc = OCACCEL_RETC_SUCCESS
    · rw [retcStage, if_pos hr, snd_withPre, verifyStage_snd]
      by_cases hv : verifySucceeds o e = true
      · have hfs : fullSuccess o e = true := by
          simp [fullSuccess, hreach, hr, hv]
        simp [hv, hfs]
      · have hfs : fullSuccess o e = false := by
          simp only [Bool.not_eq_true] at hv
          simp [fullSuccess, hv]
        simp [hv, hfs, hreach, hr]
    · have hfs : fullSuccess o e = false := by
        simp [fullSuccess, hr]
      rw [retcStage, if_neg hr]
      simp [hfs, hr]
  · have hfs : fullSuccess o e = false := by
      simp only [Bool.not_eq_true] at hreach
      simp [fullSuccess, hreach]
    have h' : reachRetcOk o e = false := by
      simpa using hreach
    rw [run_snd_fail o e h']
    simp [hfs, h']

theorem run_exit_zero_iff (o : Opts) (e : Env) :
    (run o e).2 = EXIT_SUCCESS ↔ fullSuccess o e = true := by
  rw [run_snd_cases]
  split_ifs with h1 h2 <;>
    simp_all [EXIT_SUCCESS, EXIT_FAILURE, EX_ERR_VERIFY]

theorem execStage_eq (o : Opts) (e : Env) :
    execStage o e =
      if e.execRc = 0 then
        withPre [Ev.infoPrepare, Ev.execEv] (writeStage o e)
      else
        ([Ev.infoPrepare, Ev.execEv, Ev.errExec, Ev.detachEv, Ev.cardFreeEv],
         EXIT_FAILURE) := rfl

theorem dbf_verifyStage (o : Opts) (e : Env) :
    dbf (verifyStage o e).1 = true ∧ Ev.detachEv ∈ (verifyStage o e).1 ∧
      Ev.cardFreeEv ∈ (verifyStage o e).1 := by
  unfold verifyStage
  split_ifs <;> simp [dbf]

theorem dbf_retcStage (o : Opts) (e : Env) :
    dbf (retcStage o e).1 = true ∧ Ev.detachEv ∈ (retcStage o e).1 ∧
      Ev.cardFreeEv ∈ (retcStage o e).1 := by
  unfold retcStage withPre
  split_ifs <;>
    simp [dbf, (dbf_verifyStage o e).1, (dbf_verifyStage o e).2.1,
      (dbf_verifyStage o e).2.2]

theorem dbf_writeStage (o : Opts) (e : Env) :
    dbf (writeStage o e).1 = true ∧ Ev.detachEv ∈ (writeStage o e).1 ∧
      Ev.cardFreeEv ∈ (writeStage o e).1 := by
  unfold writeStage withPre
  split_ifs <;>
    simp [dbf, (dbf_retcStage o e).1, (dbf_retcStage o e).2.1,
      (dbf_retcStage o e).2.2]

theorem dbf_execStage (o : Opts) (e : Env) :
    dbf (execStage o e).1 = true ∧ Ev.detachEv ∈ (execStage o e).1 ∧
      Ev.cardFreeEv ∈ (execStage o e).1 := by
  rw [execStage_eq]
  unfold withPre
  split_ifs <;>
    simp [dbf, (dbf_writeStage o e).1, (dbf_writeStage o e).2.1,
      (dbf_writeStage o e).2.2]

set_option maxHeartbeats 1600000 in
/-- Claim C1: on every exit path of main taken after ocaccel_attach_action
has returned a non-null action (the trace records a successful attach),
ocaccel_detach_action runs, ocaccel_card_free runs, and the detach occurs
before the card free: this holds on the success path (lines 403-404) and
on every error path (out_error2 falls through detach into out_error1)
alike. -/
theorem detach_before_card_free (o : Opts) (e : Env)
    (h : Ev.attachEv true ∈ (run o e).1) :
    dbf (run o e).1 = true ∧ Ev.detachEv ∈ (run o e).1 ∧
      Ev.cardFreeEv ∈ (run o e).1 := by
  unfold run outputStage cardStage attachStage withPre at h ⊢
  split_ifs at h ⊢ <;>
    simp_all [dbf, (dbf_execStage o e).1, (dbf_execStage o e).2.1,
      (dbf_execStage o e).2.2]

theorem detach_before_card_free_witness :
    dbf (run optsBase envBase).1 = true ∧
      Ev.detachEv ∈ (run optsBase envBase).1 ∧
      Ev.cardFreeEv ∈ (run optsBase envBase).1 :=
  detach_before_card_free optsBase envBase (by decide)

theorem assertFree_verifyStage (o : Opts) (e : Env) :
    Ev.assertFail ∉ (verifyStage o e).1 := by
  unfold verifyStage
  split_ifs <;> simp

theorem assertFree_retcStage (o : Opts) (e : Env) :
    Ev.assertFail ∉ (retcStage o e).1 := by
  unfold retcStage withPre
  split_ifs <;> simp [assertFree_verifyStage o e]

theorem assertFree_writeStage (o : Opts) (e : Env) :
    Ev.assertFail ∉ (writeStage o e).1 := by
  unfold writeStage withPre
  split_ifs <;> simp [assertFree_retcStage o e]

theorem assertFree_execStage (o : Opts) (e : Env) :
    Ev.assertFail ∉ (execStage o e).1 := by
  rw [execStage_eq]
  unfold withPre
  split_ifs <;> simp [assertFree_writeStage o e]

set_option maxHeartbeats 800000 in
/-- Claim C6: the packed helloworld job fits the fixed register window,
sizeof(struct helloworld_job) <= OCACCEL_JOBSIZE, so
ocaccel_prepare_helloworld always yields a job (its size assert cannot
fire) and no run of main ever reaches the aborted-assert event. -/
theorem job_fits (o : Opts) (e : Env) :
    sizeof_helloworld_job ≤ OCACCEL_JOBSIZE ∧
      (preparedJob o e).isSome = true ∧
      Ev.assertFail ∉ (run o e).1 := by
  refine ⟨by decide, rfl, ?_⟩
  unfold run outputStage cardStage attachStage withPre
  split_ifs <;> simp [assertFree_execStage o e]

/-- Claim C7: every job built by ocaccel_prepare_helloworld carries the
end-of-chain flag on exactly one descriptor: the output descriptor has
OCACCEL_ADDRFLAG_END set and the input descriptor does not, for all
argument values. -/
theorem prepare_marks_exactly_output_end (a1 s1 : Nat) (t1 : AddrType)
    (a2 s2 : Nat) (t2 : AddrType) :
    (ocaccel_prepare_helloworld a1 s1 t1 a2 s2 t2).isSome = true ∧
      ((ocaccel_prepare_helloworld a1 s1 t1 a2 s2 t2).getD
        jobDefault).out.flags.isEnd = true ∧
      ((ocaccel_prepare_helloworld a1 s1 t1 a2 s2 t2).getD
        jobDefault).inp.flags.isEnd = false :=
  ⟨rfl, rfl, rfl⟩

theorem noCmp_normalPrefix (o : Opts) (e : Env) :
    (normalPrefix o e).any isCmp = false := by
  unfold normalPrefix preRetcPrefix ioPrefix midPrefix
  split_ifs <;> simp [isCmp]

theorem noErrRetc_normalPrefix (o : Opts) (e : Env) :
    Ev.errRetc ∉ normalPrefix o e := by
  unfold normalPrefix preRetcPrefix ioPrefix midPrefix
  split_ifs <;> simp

theorem noErrRetc_verifyStage (o : Opts) (e : Env) :
    Ev.errRetc ∉ (verifyStage o e).1 := by
  unfold verifyStage
  split_ifs <;> simp

/-- The memory-space combination -A CARD_DRAM with an output file and -X:
verify is requested, the output buffer holds nonzero bytes past size, yet
the run performs no comparison, warns, and exits 0 — the comparison claims
of C3 and the buffer-nullity claim of C9 do not hold as stated. -/
def optsCardVerify : Opts :=
  { optsBase with
    output := true
    verify := true
    typeIn := AddrType.CARD_DRAM }

def optsOutVerify : Opts :=
  { optsBase with output := true, verify := true }

def optsNonHostVerify : Opts :=
  { optsBase with verify := true, typeIn := AddrType.CARD_DRAM }

def envObuffBad : Env := { envBase with obuff := fun _ => 7 }

def envRetcFail : Env := { envBase with retc := 7 }

/-- Claim C3 counterexample: with -X, an output file, and -A CARD_DRAM (no
input file), the output buffer has nonzero bytes in [size, size+1024), yet
the program performs no comparison at all, prints only the warning, and
exits 0 instead of EX_ERR_VERIFY — the claim as stated fails. -/
theorem verify_skipped_for_card_dram :
    optsCardVerify.verify = true ∧ optsCardVerify.output = true ∧
      trailZeroOk envObuffBad.obuff (effSize optsCardVerify envObuffBad)
        = false ∧
      ((run optsCardVerify envObuffBad).1.any isCmp) = false ∧
      (run optsCardVerify envObuffBad).2 = EXIT_SUCCESS ∧
      Ev.warnVerify ∈ (run optsCardVerify envObuffBad).1 := by
  decide

/-- Claim C3 (amended): when -X is requested, an output file is given, the
effective input memory space is HOST_DRAM, and the run reaches the verify
block, the output buffer is allocated with exactly size + 1024 bytes, the
trailing 1024 output bytes are compared against zero, and a nonzero byte
there reports the trailing-zero failure and exits with EX_ERR_VERIFY. -/
theorem verify_trailing_check (o : Opts) (e : Env)
    (hv : o.verify = true) (ho : o.output = true)
    (hreach : reachRetcOk o e = true)
    (hretc : e.retc = OCACCEL_RETC_SUCCESS)
    (hti : effTypeIn o = AddrType.HOST_DRAM) :
    Ev.allocOut (effSize o e + 1024) ∈ (run o e).1 ∧
      Ev.cmpTrailing (obuffPtr o e) ∈ (run o e).1 ∧
      (trailZeroOk e.obuff (effSize o e) = false →
        Ev.errTrailing ∈ (run o e).1 ∧ (run o e).2 = EX_ERR_VERIFY) := by
  have hb : bothHost o = true := by
    simp [bothHost, hti, effTypeOut, ho]
  rw [run_reach o e hreach hretc]
  refine ⟨?_, ?_, ?_⟩
  · simp [mem_withPre, normalPrefix, preRetcPrefix, ioPrefix, ho, hv]
  · simp [mem_withPre, verifyStage, hv, hb]
  · intro htz
    refine ⟨?_, ?_⟩
    · simp [mem_withPre, verifyStage, hv, hb, htz]
    · rw [snd_withPre, verifyStage_snd]
      have hvf : verifySucceeds o e = false := by
        simp [verifySucceeds, hv, hb, htz]
      simp [hvf]

theorem verify_trailing_check_witness :
    Ev.allocOut 1026 ∈ (run optsOutVerify envObuffBad).1 ∧
      Ev.cmpTrailing 200 ∈ (run optsOutVerify envObuffBad).1 ∧
      Ev.errTrailing ∈ (run optsOutVerify envObuffBad).1 ∧
      (run optsOutVerify envObuffBad).2 = EX_ERR_VERIFY := by
  have h := verify_trailing_check optsOutVerify envObuffBad (by decide)
    (by decide) (by decide) (by decide) (by decide)
  exact ⟨h.1, h.2.1, (h.2.2 (by decide)).1, (h.2.2 (by decide)).2⟩

/-- Claim C4: when -X is requested but the effective memory-space pair is
not (HOST_DRAM, HOST_DRAM), a run reaching the verify block performs no
comparison, prints the warning on the error stream, and exits 0 — the
exit code does not become a verification failure. -/
theorem verify_warn_non_host (o : Opts) (e : Env)
    (hreach : reachRetcOk o e = true)
    (hretc : e.retc = OCACCEL_RETC_SUCCESS)
    (hv : o.verify = true) (hnb : bothHost o = false) :
    Ev.warnVerify ∈ (run o e).1 ∧
      ((run o e).1.any isCmp) = false ∧
      (run o e).2 = EXIT_SUCCESS := by
  rw [run_reach o e hreach hretc]
  refine ⟨?_, ?_, ?_⟩
  · simp [mem_withPre, verifyStage, hv, hnb]
  · simp [withPre, List.any_append, noCmp_normalPrefix o e, verifyStage,
      hv, hnb, isCmp]
  · rw [snd_withPre, verifyStage_snd]
    have hvs : verifySucceeds o e = true := by
      simp [verifySucceeds, hnb]
    simp [hvs]

theorem verify_warn_non_host_witness :
    Ev.warnVerify ∈ (run optsNonHostVerify envBase).1 ∧
      ((run optsNonHostVerify envBase).1.any isCmp) = false ∧
      (run optsNonHostVerify envBase).2 = EXIT_SUCCESS :=
  verify_warn_non_host optsNonHostVerify envBase (by decide) (by decide)
    (by decide) (by decide)

/-- Claim C5: a hardware-reported non-success return code and a
verification mismatch are reported distinctly: the RETC mismatch prints
FAILED plus the RETC diagnostic and exits EXIT_FAILURE via out_error2,
while a verification mismatch exits with the distinct code EX_ERR_VERIFY
after the normal teardown (detach, card free), printing no RETC
diagnostic; EXIT_FAILURE and EX_ERR_VERIFY differ. -/
theorem retc_vs_verify_reports (o : Opts) (e : Env)
    (hreach : reachRetcOk o e = true) :
    (e.retc ≠ OCACCEL_RETC_SUCCESS →
      Ev.stdoutFailed ∈ (run o e).1 ∧ Ev.errRetc ∈ (run o e).1 ∧
        (run o e).2 = EXIT_FAILURE) ∧
    (e.retc = OCACCEL_RETC_SUCCESS → verifySucceeds o e = false →
      (run o e).2 = EX_ERR_VERIFY ∧ Ev.errRetc ∉ (run o e).1 ∧
        Ev.stdoutSuccess ∈ (run o e).1 ∧ Ev.detachEv ∈ (run o e).1 ∧
        Ev.cardFreeEv ∈ (run o e).1) ∧
    EXIT_FAILURE ≠ EX_ERR_VERIFY := by
  refine ⟨?_, ?_, by decide⟩
  · intro hr
    rw [run_to_retc o e hreach]
    refine ⟨?_, ?_, ?_⟩
    · simp [mem_withPre, retcStage, hr]
    · simp [mem_withPre, retcStage, hr]
    · rw [snd_withPre, retcStage]
      simp [hr]
  · intro hr hv
    rw [run_reach o e hreach hr]
    refine ⟨?_, ?_, ?_, ?_, ?_⟩
    · rw [snd_withPre, verifyStage_snd]
      simp [hv]
    · simp [withPre, noErrRetc_normalPrefix o e, noErrRetc_verifyStage o e]
    · simp [withPre, normalPrefix]
    · simp [mem_withPre, (dbf_verifyStage o e).2.1]
    · simp [mem_withPre, (dbf_verifyStage o e).2.2]

theorem retc_vs_verify_reports_witness :
    Ev.stdoutFailed ∈ (run optsBase envRetcFail).1 ∧
      Ev.errRetc ∈ (run optsBase envRetcFail).1 ∧
      (run optsBase envRetcFail).2 = EXIT_FAILURE := by
  have h := retc_vs_verify_reports optsBase envRetcFail (by decide)
  exact h.1 (by decide)

/-- Claim C9 counterexample: with -X and -o but no -i, the run reaches the
verification memcmp with the input buffer pointer still NULL (both types
defaulting or forced to HOST_DRAM) — the comparison is reachable without
an input file, contradicting the claim. -/
theorem cmp_executes_with_null_input_buffer :
    optsOutVerify.input = false ∧
      Ev.cmpData 0 200 ∈ (run optsOutVerify envBase).1 := by
  decide

/-- Claim C9 (amended): the verification comparisons are guarded only by
the -X flag and both effective memory spaces being HOST_DRAM; they execute
on the buffer pointers main holds, which are the allocations when the
respective files were supplied and NULL when not — non-nullity of the
compared buffers is not guaranteed. -/
theorem cmp_guard (o : Opts) (e : Env)
    (hreach : reachRetcOk o e = true)
    (hretc : e.retc = OCACCEL_RETC_SUCCESS)
    (hv : o.verify = true) (hb : bothHost o = true) :
    Ev.cmpData (ibuffPtr o e) (obuffPtr o e) ∈ (run o e).1 ∧
      Ev.cmpTrailing (obuffPtr o e) ∈ (run o e).1 ∧
      (o.input = false → ibuffPtr o e = 0) ∧
      (o.output = false → obuffPtr o e = 0) := by
  rw [run_reach o e hreach hretc]
  refine ⟨?_, ?_, ?_, ?_⟩
  · simp [mem_withPre, verifyStage, hv, hb]
  · simp [mem_withPre, verifyStage, hv, hb]
  · intro hi
    simp [ibuffPtr, hi]
  · intro ho
    simp [obuffPtr, ho]

theorem cmp_guard_witness :
    Ev.cmpData 0 200 ∈ (run optsOutVerify envBase).1 ∧
      Ev.cmpTrailing 200 ∈ (run optsOutVerify envBase).1 := by
  have h := cmp_guard optsOutVerify envBase (by decide) (by decide)
    (by decide) (by decide)
  exact ⟨h.1, h.2.1⟩

def optsInOutVerify : Opts :=
  { optsBase with input := true, output := true, verify := true }

def envIbuffMismatch : Env := { envBase with ibuff := fun _ => 97 }

def envCardFail : Env := { envBase with cardOk := false }

def envAttachFail : Env := { envBase with attachOk := false }

def optsInOut : Opts := { optsBase with input := true, output := true }

/-- Claim C2 counterexample: a run whose only failure is the data-mismatch
verification (output bytes differ from input bytes) exits with the
non-zero code EX_ERR_VERIFY but prints no failure diagnostic on the error
stream (no err: line occurs in the whole run) — and it even prints the
SUCCESS marker on stdout first. -/
theorem verify_data_mismatch_silent :
    fullSuccess optsInOutVerify envIbuffMismatch = false ∧
      (run optsInOutVerify envIbuffMismatch).2 = EX_ERR_VERIFY ∧
      ((run optsInOutVerify envIbuffMismatch).1.any isDiag) = false ∧
      Ev.stdoutSuccess ∈ (run optsInOutVerify envIbuffMismatch).1 := by
  decide

/-- Claim C2 (amended): when construction, attach, execution, file I/O,
the hardware return code and (when performed) verification all succeed,
the run prints the SUCCESS marker and exits 0; every failing run exits
non-zero; the card, attach, execution and return-code failures print
their err: diagnostic on the error stream (a data-mismatch verification
failure exits EX_ERR_VERIFY silently, and the construction failures exit
without a diagnostic from main itself). -/
theorem main_exit_behavior (o : Opts) (e : Env) :
    (fullSuccess o e = true →
      (run o e).2 = EXIT_SUCCESS ∧ Ev.stdoutSuccess ∈ (run o e).1) ∧
    (fullSuccess o e = false → (run o e).2 ≠ EXIT_SUCCESS) ∧
    (inputOk o e = true → outputOk o e = true → e.cardOk = false →
      Ev.errCard ∈ (run o e).1) ∧
    (inputOk o e = true → outputOk o e = true → e.cardOk = true →
      e.attachOk = false → Ev.errAttach ∈ (run o e).1) ∧
    (inputOk o e = true → outputOk o e = true → e.cardOk = true →
      e.attachOk = true → e.execRc ≠ 0 → Ev.errExec ∈ (run o e).1) ∧
    (reachRetcOk o e = true → e.retc ≠ OCACCEL_RETC_SUCCESS →
      Ev.errRetc ∈ (run o e).1) := by
  refine ⟨?_, ?_, ?_, ?_, ?_, ?_⟩
  · intro hs
    have hparts : reachRetcOk o e = true ∧ e.retc = OCACCEL_RETC_SUCCESS := by
      simp only [fullSuccess, Bool.and_eq_true, beq_iff_eq] at hs
      exact ⟨hs.1.1, hs.1.2⟩
    refine ⟨(run_exit_zero_iff o e).mpr hs, ?_⟩
    rw [run_reach o e hparts.1 hparts.2]
    simp [mem_withPre, normalPrefix]
  · intro hs
    rw [run_snd_cases, hs]
    split_ifs <;> simp_all [EXIT_SUCCESS, EXIT_FAILURE, EX_ERR_VERIFY]
  · intro h1 h2 h3
    rw [run_decomp o e h1 h2]
    simp [mem_withPre, cardStage, h3]
  · intro h1 h2 h3 h4
    rw [run_decomp o e h1 h2]
    simp [mem_withPre, cardStage, attachStage, withPre, h3, h4]
  · intro h1 h2 h3 h4 h5
    rw [run_decomp o e h1 h2]
    simp [mem_withPre, cardStage, attachStage, execStage_eq, withPre,
      h3, h4, h5]
  · intro hreach hr
    rw [run_to_retc o e hreach]
    simp [mem_withPre, retcStage, hr]

theorem main_exit_behavior_witness :
    ((run optsBase envBase).2 = EXIT_SUCCESS ∧
      Ev.stdoutSuccess ∈ (run optsBase envBase).1) ∧
      (run optsBase envCardFail).2 ≠ EXIT_SUCCESS ∧
      Ev.errCard ∈ (run optsBase envCardFail).1 := by
  refine ⟨(main_exit_behavior optsBase envBase).1 (by decide), ?_, ?_⟩
  · exact (main_exit_behavior optsBase envCardFail).2.1 (by decide)
  · exact (main_exit_behavior optsBase envCardFail).2.2.1 (by decide)
      (by decide) (by decide)

/-- Claim C8: main calls ocaccel_action_assign_irq on the attach result
before testing it against NULL (line 327 precedes the check at line 328),
so in the default interrupt mode a failed attach still reaches assign_irq
with a NULL action: this run records the failed attach together with the
assign_irq call, before taking the attach-failure error path. -/
theorem assign_irq_on_null_action :
    optsBase.noIrq = false ∧
      Ev.attachEv false ∈ (run optsBase envAttachFail).1 ∧
      Ev.assignIrq ∈ (run optsBase envAttachFail).1 ∧
      Ev.errAttach ∈ (run optsBase envAttachFail).1 := by
  decide

/-- Claim C10: supplying an input file forces the job's data size to the
file size and the input descriptor to HOST_DRAM at the input buffer
address, overriding any -s, -A, -a values in the options record;
supplying an output file forces the output descriptor to HOST_DRAM at the
output buffer address, overriding -D and -d. -/
theorem file_params_override (o : Opts) (e : Env) (_hf : 0 ≤ e.fileSize) :
    preparedJob o e = some (preparedJobD o e) ∧
      (o.input = true →
        (preparedJobD o e).inp.size = e.fileSize.toNat ∧
        (preparedJobD o e).out.size = e.fileSize.toNat ∧
        (preparedJobD o e).inp.typ = AddrType.HOST_DRAM ∧
        (preparedJobD o e).inp.addr = e.ibuffAddr) ∧
      (o.output = true →
        (preparedJobD o e).out.typ = AddrType.HOST_DRAM ∧
        (preparedJobD o e).out.addr = e.obuffAddr) := by
  refine ⟨rfl, ?_, ?_⟩
  · intro hi
    simp [preparedJobD, preparedJob_eq, jobOf, ocaccel_addr_set, effSize,
      effTypeIn, effAddrIn, hi]
  · intro ho
    simp [preparedJobD, preparedJob_eq, jobOf, ocaccel_addr_set,
      effTypeOut, effAddrOut, ho]

theorem file_params_override_witness :
    (preparedJobD optsInOut envBase).inp.size = 2 ∧
      (preparedJobD optsInOut envBase).inp.typ = AddrType.HOST_DRAM ∧
      (preparedJobD optsInOut envBase).inp.addr = 100 ∧
      (preparedJobD optsInOut envBase).out.typ = AddrType.HOST_DRAM ∧
      (preparedJobD optsInOut envBase).out.addr = 200 := by
  have h := file_params_override optsInOut envBase (by decide)
  exact ⟨(h.2.1 (by decide)).1, (h.2.1 (by decide)).2.2.1,
    (h.2.1 (by decide)).2.2.2, (h.2.2 (by decide)).1, (h.2.2 (by decide)).2⟩

end OcaccelHW
